import Mathlib

set_option maxRecDepth 100000

/-!
Verification development for the repository's signed REST API clients
(`bingx_api.py`, `src/api/bingx_api.py`, `backup/bingx_client_updated.py`,
`trading_ai_system/api/binance_api.py`).

The Python code is shallowly embedded: machine-independent pure fragments
(HMAC-SHA256 signing, query-string canonicalization, the DEMO fixture
table, retry/rate-limit arithmetic) become executable Lean functions;
stateful and effectful fragments (the wall clock, the HTTP transport)
become explicit parameters or oracles.
-/

namespace Spec2Proof

/-! ## Bytes, UTF-8, hex

Models Python's `str.encode("utf-8")`, and the lowercase hex rendering
used by `hashlib`'s `hexdigest()`. Bytes are `Nat`s below 256.
-/

/-- UTF-8 encoding of a single Unicode code point, as in CPython's
`str.encode("utf-8")`. -/
def encodeChar (c : Char) : List Nat :=
  let n := c.toNat
  if n < 0x80 then [n]
  else if n < 0x800 then [0xC0 ||| (n >>> 6), 0x80 ||| (n &&& 0x3F)]
  else if n < 0x10000 then
    [0xE0 ||| (n >>> 12), 0x80 ||| ((n >>> 6) &&& 0x3F), 0x80 ||| (n &&& 0x3F)]
  else
    [0xF0 ||| (n >>> 18), 0x80 ||| ((n >>> 12) &&& 0x3F),
     0x80 ||| ((n >>> 6) &&& 0x3F), 0x80 ||| (n &&& 0x3F)]

/-- `s.encode("utf-8")` as a byte list. -/
def utf8Bytes (s : String) : List Nat :=
  s.data.flatMap encodeChar

/-- The sixteen lowercase hex digits, as used by `hexdigest()`. -/
def hexAlphabet : List Char :=
  "0123456789abcdef".data

/-- The `n`-th lowercase hex digit. -/
def hexChar (n : Nat) : Char :=
  hexAlphabet.getD n '0'

/-- Two lowercase hex digits for one byte. -/
def byteHex (b : Nat) : List Char :=
  [hexChar (b / 16), hexChar (b % 16)]

/-- Lowercase hex rendering of a byte string: `hexdigest()` applied to a
digest. -/
def bytesToHex (bs : List Nat) : String :=
  String.mk (bs.flatMap byteHex)

/-! ## SHA-256

`hashlib.sha256`, embedded over byte lists with 32-bit words as `Nat`
reduced `% 2^32` where overflow matters.
-/

/-- Truncation to a 32-bit word. -/
def w32 (n : Nat) : Nat := n % 4294967296

/-- Right rotation of a 32-bit word by `n` bits. -/
def rotr (n w : Nat) : Nat :=
  w32 ((w >>> n) ||| (w <<< (32 - n)))

/-- Bitwise complement of a 32-bit word. -/
def not32 (w : Nat) : Nat := w ^^^ 0xFFFFFFFF

def ch (e f g : Nat) : Nat := (e &&& f) ^^^ (not32 e &&& g)

def maj (a b c : Nat) : Nat := (a &&& b) ^^^ (a &&& c) ^^^ (b &&& c)

def bsig0 (x : Nat) : Nat := rotr 2 x ^^^ rotr 13 x ^^^ rotr 22 x

def bsig1 (x : Nat) : Nat := rotr 6 x ^^^ rotr 11 x ^^^ rotr 25 x

def ssig0 (x : Nat) : Nat := rotr 7 x ^^^ rotr 18 x ^^^ (x >>> 3)

def ssig1 (x : Nat) : Nat := rotr 17 x ^^^ rotr 19 x ^^^ (x >>> 10)

/-- The 64 SHA-256 round constants (FIPS 180-4), written in decimal. -/
def sha256K : List Nat :=
  [1116352408, 1899447441, 3049323471, 3921009573, 961987163, 1508970993,
   2453635748, 2870763221, 3624381080, 310598401, 607225278, 1426881987,
   1925078388, 2162078206, 2614888103, 3248222580, 3835390401, 4022224774,
   264347078, 604807628, 770255983, 1249150122, 1555081692, 1996064986,
   2554220882, 2821834349, 2952996808, 3210313671, 3336571891, 3584528711,
   113926993, 338241895, 666307205, 773529912, 1294757372, 1396182291,
   1695183700, 1986661051, 2177026350, 2456956037, 2730485921, 2820302411,
   3259730800, 3345764771, 3516065817, 3600352804, 4094571909, 275423344,
   430227734, 506948616, 659060556, 883997877, 958139571, 1322822218,
   1537002063, 1747873779, 1955562222, 2024104815, 2227730452, 2361852424,
   2428436474, 2756734187, 3204031479, 3329325298]

/-- The eight-word SHA-256 working state. -/
structure Sha256St where
  a : Nat
  b : Nat
  c : Nat
  d : Nat
  e : Nat
  f : Nat
  g : Nat
  h : Nat
deriving Repr, DecidableEq

/-- The SHA-256 initial hash value. -/
def sha256Init : Sha256St :=
  ⟨1779033703, 3144134277, 1013904242, 2773480762,
   1359893119, 2600822924, 528734635, 1541459225⟩

/-- Big-endian bytes to 32-bit words, four bytes per word. -/
def bytesToWords : List Nat → List Nat
  | b0 :: b1 :: b2 :: b3 :: rest =>
      (b0 <<< 24 ||| b1 <<< 16 ||| b2 <<< 8 ||| b3) :: bytesToWords rest
  | _ => []

/-- Extend a 16-word message schedule by `k` further words. -/
def extendSchedule (ws : List Nat) : Nat → List Nat
  | 0 => ws
  | k + 1 =>
      let i := ws.length
      let nw := w32 (ssig1 (ws.getD (i - 2) 0) + ws.getD (i - 7) 0 +
                     ssig0 (ws.getD (i - 15) 0) + ws.getD (i - 16) 0)
      extendSchedule (ws ++ [nw]) k

/-- One SHA-256 round, fed a pair of (round constant, schedule word). -/
def sha256Round (st : Sha256St) (kw : Nat × Nat) : Sha256St :=
  let t1 := w32 (st.h + bsig1 st.e + ch st.e st.f st.g + kw.1 + kw.2)
  let t2 := w32 (bsig0 st.a + maj st.a st.b st.c)
  ⟨w32 (t1 + t2), st.a, st.b, st.c, w32 (st.d + t1), st.e, st.f, st.g⟩

/-- Pointwise modular addition of two states. -/
def addSt (x y : Sha256St) : Sha256St :=
  ⟨w32 (x.a + y.a), w32 (x.b + y.b), w32 (x.c + y.c), w32 (x.d + y.d),
   w32 (x.e + y.e), w32 (x.f + y.f), w32 (x.g + y.g), w32 (x.h + y.h)⟩

/-- Compress one 64-byte block into the state. -/
def sha256Block (st : Sha256St) (block : List Nat) : Sha256St :=
  let ws := extendSchedule (bytesToWords block) 48
  addSt st ((sha256K.zip ws).foldl sha256Round st)

/-- Split a byte list into 64-byte blocks; `fuel` bounds the recursion and
is instantiated with the list length (more than enough). -/
def blocks64 : Nat → List Nat → List (List Nat)
  | 0, _ => []
  | _ + 1, [] => []
  | fuel + 1, l => l.take 64 :: blocks64 fuel (l.drop 64)

/-- Big-endian bytes of a 64-bit length field. -/
def lenBytes64 (n : Nat) : List Nat :=
  [(n >>> 56) % 256, (n >>> 48) % 256, (n >>> 40) % 256, (n >>> 32) % 256,
   (n >>> 24) % 256, (n >>> 16) % 256, (n >>> 8) % 256, n % 256]

/-- SHA-256 padding: append `0x80`, zeros, and the 64-bit bit length. -/
def sha256Pad (msg : List Nat) : List Nat :=
  let l := msg.length
  let zeros := (119 - l % 64) % 64
  msg ++ [0x80] ++ List.replicate zeros 0 ++ lenBytes64 (8 * l)

/-- Serialize the final state as 32 big-endian digest bytes. -/
def stBytes (st : Sha256St) : List Nat :=
  [(st.a >>> 24) % 256, (st.a >>> 16) % 256, (st.a >>> 8) % 256, st.a % 256,
   (st.b >>> 24) % 256, (st.b >>> 16) % 256, (st.b >>> 8) % 256, st.b % 256,
   (st.c >>> 24) % 256, (st.c >>> 16) % 256, (st.c >>> 8) % 256, st.c % 256,
   (st.d >>> 24) % 256, (st.d >>> 16) % 256, (st.d >>> 8) % 256, st.d % 256,
   (st.e >>> 24) % 256, (st.e >>> 16) % 256, (st.e >>> 8) % 256, st.e % 256,
   (st.f >>> 24) % 256, (st.f >>> 16) % 256, (st.f >>> 8) % 256, st.f % 256,
   (st.g >>> 24) % 256, (st.g >>> 16) % 256, (st.g >>> 8) % 256, st.g % 256,
   (st.h >>> 24) % 256, (st.h >>> 16) % 256, (st.h >>> 8) % 256, st.h % 256]

/-- `hashlib.sha256(msg).digest()` over byte lists. -/
def sha256 (msg : List Nat) : List Nat :=
  let padded := sha256Pad msg
  stBytes ((blocks64 padded.length padded).foldl sha256Block sha256Init)

/-! ## HMAC-SHA256

`hmac.new(key, msg, hashlib.sha256)` over byte lists.
-/

/-- Normalize the key: hash it if longer than the 64-byte block size, then
zero-pad to 64 bytes. -/
def hmacKey (key : List Nat) : List Nat :=
  let k0 := if 64 < key.length then sha256 key else key
  k0 ++ List.replicate (64 - k0.length) 0

/-- `hmac.new(key, msg, hashlib.sha256).digest()`. -/
def hmacSha256 (key msg : List Nat) : List Nat :=
  let k := hmacKey key
  let ipad := k.map (fun b => b ^^^ 0x36)
  let opad := k.map (fun b => b ^^^ 0x5C)
  sha256 (opad ++ sha256 (ipad ++ msg))

/-- `hmac.new(key.encode("utf-8"), msg.encode("utf-8"),
hashlib.sha256).hexdigest()` — the signing primitive shared by every
client variant in the repository. -/
def hmacSha256Hex (key msg : String) : String :=
  bytesToHex (hmacSha256 (utf8Bytes key) (utf8Bytes msg))

end Spec2Proof

namespace Spec2Proof

/-! ## Parameter mappings and query-string canonicalization

Request parameters are association lists `List (String × String)` in
insertion order, matching Python `dict` iteration order. `dictSet` is
`params[k] = v`; `sortPairs` is `sorted(params.items())` (a stable sort
by the pair order Python uses on tuples: keys first, byte-order string
comparison); `joinStrings` is `sep.join(...)`.
-/

/-- `params[k] = v` on an insertion-ordered mapping: overwrite in place if
the key exists, else append. -/
def dictSet (ps : List (String × String)) (k v : String) :
    List (String × String) :=
  if ps.any (fun p => p.1 == k) then
    ps.map (fun p => if p.1 == k then (k, v) else p)
  else ps ++ [(k, v)]

/-- Python string `<`: lexicographic comparison by code point. -/
def strLtL : List Char → List Char → Bool
  | [], [] => false
  | [], _ :: _ => true
  | _ :: _, [] => false
  | a :: as, b :: bs =>
      if a.toNat = b.toNat then strLtL as bs else decide (a.toNat < b.toNat)

/-- Python's `s < t` on strings. -/
def pyStrLt (s t : String) : Bool := strLtL s.data t.data

/-- Python's `s <= t` on strings: the order is total, so `¬ (t < s)`. -/
def pyStrLe (s t : String) : Bool := !(pyStrLt t s)

/-- Python tuple comparison on `(key, value)` pairs: keys first,
lexicographic code-point order on strings, values break ties. -/
def pairLe (p q : String × String) : Bool :=
  if p.1 = q.1 then pyStrLe p.2 q.2 else pyStrLt p.1 q.1

/-- Insert into an already sorted list, before the first element it is
`pairLe`-below (stable). -/
def insertSorted (p : String × String) :
    List (String × String) → List (String × String)
  | [] => [p]
  | q :: rest => if pairLe p q then p :: q :: rest else q :: insertSorted p rest

/-- `sorted(params.items())`: stable insertion sort. -/
def sortPairs : List (String × String) → List (String × String)
  | [] => []
  | p :: rest => insertSorted p (sortPairs rest)

/-- `sep.join(strings)`. -/
def joinStrings (sep : String) : List String → String
  | [] => ""
  | [s] => s
  | s :: rest => s ++ sep ++ joinStrings sep rest

/-- `"&".join(f"{k}={v}" for k, v in ps)`. -/
def joinPairs (ps : List (String × String)) : String :=
  joinStrings "&" (ps.map (fun p => p.1 ++ "=" ++ p.2))

/-- The sixteen uppercase hex digits used by `urllib.parse.quote`. -/
def upHexChar (n : Nat) : Char :=
  "0123456789ABCDEF".data.getD n '0'

/-- Percent-encode one byte, uppercase hex. -/
def percentByte (b : Nat) : List Char :=
  ['%', upHexChar (b / 16), upHexChar (b % 16)]

/-- One character under `urllib.parse.quote_plus`: ASCII alphanumerics and
`_.-~` pass through, space becomes `+`, anything else is percent-encoded
byte-wise over its UTF-8 encoding. -/
def quotePlusChar (c : Char) : List Char :=
  if c.isAlphanum || c == '_' || c == '.' || c == '-' || c == '~' then [c]
  else if c == ' ' then ['+']
  else (encodeChar c).flatMap percentByte

/-- `urllib.parse.quote_plus`. -/
def quotePlus (s : String) : String :=
  String.mk (s.data.flatMap quotePlusChar)

/-- `urllib.parse.urlencode(ps)`: quote each key and value, join as
`k=v` pairs with `&`, in the order given (urlencode does NOT sort). -/
def urlencode (ps : List (String × String)) : String :=
  joinStrings "&" (ps.map (fun p => quotePlus p.1 ++ "=" ++ quotePlus p.2))

end Spec2Proof

namespace Spec2Proof

/-! ## JSON values and HTTP response model

`Jsonv` embeds the JSON bodies the clients build and receive. An HTTP
response carries its status code, its body text, and the outcome of
`response.json()` — parsing is abstracted as a field of the oracle
response since no claim depends on the parser itself. `JsonError` models
`json.JSONDecodeError`, whose attributes are `msg`, `doc`, `pos`,
`lineno`, `colno`; it has no `response` attribute, so
`hasattr(e, "response")` is `False` for it.
-/

inductive Jsonv where
  | jnull
  | jbool (b : Bool)
  | jnum (n : Int)
  | jstr (s : String)
  | jarr (elems : List Jsonv)
  | jobj (fields : List (String × Jsonv))
deriving Repr

/-- Field lookup in a JSON object's field list. -/
def lookupField : List (String × Jsonv) → String → Option Jsonv
  | [], _ => none
  | (k, v) :: rest, key => if k = key then some v else lookupField rest key

/-- `obj.get(k)` on a JSON object, `none` on other shapes. -/
def objGet (j : Jsonv) (k : String) : Option Jsonv :=
  match j with
  | .jobj fs => lookupField fs k
  | _ => none

/-- First element of a JSON array. -/
def arrFirst : Jsonv → Option Jsonv
  | .jarr (x :: _) => some x
  | _ => none

/-- `j["data"][0]["time"]`, the clock-bearing field of several DEMO
fixtures, as an integer. -/
def firstDataTime (j : Jsonv) : Option Int :=
  match objGet j "data" with
  | some d =>
      match arrFirst d with
      | some e =>
          match objGet e "time" with
          | some (.jnum n) => some n
          | _ => none
      | none => none
  | none => none

/-- `json.JSONDecodeError`: constructed by the `json` module with a
message, the offending document and a position. -/
structure JsonError where
  msg : String
  doc : String
  pos : Nat
deriving Repr, DecidableEq

/-- `hasattr(e, "response")` for a `json.JSONDecodeError`: the class
defines `msg`, `doc`, `pos`, `lineno`, `colno` and nothing else, so this
is `False` for every such exception value. -/
def jsonErrorHasResponseAttr (_ : JsonError) : Bool := false

/-- An HTTP response as seen through the `requests`/`aiohttp` layer. -/
structure HttpResp where
  status : Nat
  content : String
  jsonResult : Except JsonError Jsonv

/-- One transport interaction: either a network-layer failure
(DNS/connection/TLS, raised as a `RequestException`) or a response. -/
inductive TransportOutcome where
  | netError (msg : String)
  | success (r : HttpResp)

end Spec2Proof

namespace Spec2Proof.BingXAPI

/-!
## The consolidated client, `src/bingx_api.py` (`class BingXAPI`)
-/

/-- `base_url.rstrip("/")`. -/
def rstripSlash (s : String) : String :=
  String.mk (s.data.reverse.dropWhile (fun c => c == '/')).reverse

/-- `config.RATE_LIMIT_DELAY` (`backup/config.py` line 25): 0.2 seconds. -/
def configRateLimitDelay : ℚ := 1 / 5

/-- Client state built by `BingXAPI.__init__` (lines 23-61): the
credentials and base URL are stored unchecked — the constructor performs
no validation of any kind on them — together with the rate-limit clock.
The session's retry policy is the `retryTotal`/`statusForcelist`
configuration below. -/
structure Client where
  apiKey : String
  secretKey : String
  baseUrl : String
  lastRequestTime : ℚ
  rateLimitDelay : ℚ
deriving Repr, DecidableEq

/-- `BingXAPI.__init__(api_key, secret_key, base_url)`: total — it never
raises for any credential values. -/
def initAPI (apiKey secretKey baseUrl : String) : Client :=
  { apiKey := apiKey
    secretKey := secretKey
    baseUrl := rstripSlash baseUrl
    lastRequestTime := 0
    rateLimitDelay := configRateLimitDelay }

/-- `_generate_signature` (lines 71-86): HMAC-SHA256 of the UTF-8 bytes
of the query string, keyed by the UTF-8 bytes of the secret key, as a
lowercase hex digest. -/
def generateSignature (secretKey queryString : String) : String :=
  hmacSha256Hex secretKey queryString

/-- The parameters covered by the signature in `_create_signed_request`
(lines 102-110): the caller's parameters with `timestamp` set to the
current epoch milliseconds, sorted lexicographically. -/
def coveredParams (params : List (String × String)) (nowMs : Nat) :
    List (String × String) :=
  sortPairs (dictSet params "timestamp" (toString nowMs))

/-- The signature of a signed request (lines 110-113): computed over the
serialized, sorted, timestamp-complete parameter list. -/
def requestSignature (secretKey : String) (params : List (String × String))
    (nowMs : Nat) : String :=
  generateSignature secretKey (joinPairs (coveredParams params nowMs))

/-- Everything transmitted as query parameters: the covered parameters
followed by the trailing `signature` parameter. -/
def transmittedParams (secretKey : String) (params : List (String × String))
    (nowMs : Nat) : List (String × String) :=
  coveredParams params nowMs ++
    [("signature", requestSignature secretKey params nowMs)]

/-- The full request URL of `_create_signed_request` (line 116):
`f"{base_url}{path}?{query_string}&signature={signature}"`. -/
def requestUrl (cl : Client) (path : String)
    (params : List (String × String)) (nowMs : Nat) : String :=
  cl.baseUrl ++ path ++ "?" ++ joinPairs (coveredParams params nowMs) ++
    "&signature=" ++ requestSignature cl.secretKey params nowMs

/-- `_enforce_rate_limit` (lines 63-69) with the wall clock explicit:
`lastRequestTime` is the recorded time of the previous gate passage and
`now` the current clock; the result is the time at which the gate is
passed (after `time.sleep(delay - elapsed)` if the elapsed time is short)
— the code records exactly this instant as the new `last_request_time`
and then issues the request. -/
def enforceRateLimit (delay lastRequestTime now : ℚ) : ℚ :=
  let elapsed := now - lastRequestTime
  if elapsed < delay then now + (delay - elapsed) else now

/-- `status_forcelist` of the session retry policy (lines 38-42). -/
def statusForcelist : List Nat := [429, 500, 502, 503, 504]

/-- `Retry(total=3, ...)` (line 39): the configured retry allowance. -/
def retryTotal : Nat := 3

/-- A status triggers a retry exactly when it is in the forcelist. -/
def isRetryableStatus (s : Nat) : Bool := statusForcelist.contains s

/-- Modelled library semantics: `urllib3.util.retry.Retry` as configured
in `BingXAPI.__init__` (lines 37-45) and mounted on the session. Each
attempt `idx` reads the oracle `responses idx`; a status in the
forcelist consumes one unit of the retry allowance and retries, any
other status ends the loop with that response; a retryable status with
the allowance exhausted fails with `MaxRetryError`. Returns the outcome
and the total number of transport attempts performed. -/
def retryAttempts (responses : Nat → Nat) :
    Nat → Nat → Except String Nat × Nat
  | 0, idx =>
      if isRetryableStatus (responses idx) then
        (Except.error "MaxRetryError", idx + 1)
      else (Except.ok (responses idx), idx + 1)
  | r + 1, idx =>
      if isRetryableStatus (responses idx) then
        retryAttempts responses r (idx + 1)
      else (Except.ok (responses idx), idx + 1)

/-- `self.session.request(...)` with the mounted retry adapter: final
status (or exhaustion error) plus the number of transport attempts. -/
def sessionRequest (responses : Nat → Nat) : Except String Nat × Nat :=
  retryAttempts responses retryTotal 0

/-- Exceptions that escape `_create_signed_request` and
`_create_unsigned_request` to the caller. -/
inductive PyError where
  | requestsError (msg : String)
  | httpError (status : Nat)
  | valueError (e : JsonError)
deriving Repr, DecidableEq

/-- The shared response-handling logic of `_create_signed_request`
(lines 118-141) and `_create_unsigned_request` (lines 158-181) — the two
`try`/`except` bodies are textually identical. A network failure is a
`RequestException`: logged and re-raised. `raise_for_status()` raises
`HTTPError` (a `RequestException`) for 4xx/5xx: logged and re-raised.
An empty body is a synthetic success. A JSON-decode failure hits the
`except ValueError` arm whose `hasattr(e, "response")` guard decides
between wrapping `e.response.text` as a success payload and re-raising;
since the guard is false for every `json.JSONDecodeError`, the wrap arm
(modelled here with the response body standing in for the unreachable
`e.response.text` expression) cannot be taken. -/
def handleResponse (out : TransportOutcome) : Except PyError Jsonv :=
  match out with
  | .netError m => .error (.requestsError m)
  | .success r =>
      if 400 ≤ r.status then .error (.httpError r.status)
      else if r.content = "" then
        .ok (.jobj [("code", .jnum 0), ("msg", .jstr "success"),
                    ("data", .jobj [])])
      else
        match r.jsonResult with
        | .ok j => .ok j
        | .error e =>
            if jsonErrorHasResponseAttr e then
              .ok (.jobj [("code", .jnum 0), ("msg", .jstr "success"),
                          ("data", .jobj [("raw_response", .jstr r.content)])])
            else .error (.valueError e)

/-- `_create_signed_request` (lines 88-141) as a function of the client,
a transport oracle from the final URL to its outcome, the path, the
caller's parameters and the current clock. -/
def createSignedRequest (cl : Client) (transport : String → TransportOutcome)
    (path : String) (params : List (String × String)) (nowMs : Nat) :
    Except PyError Jsonv :=
  handleResponse (transport (requestUrl cl path params nowMs))

/-- `_create_unsigned_request` (lines 143-181): no timestamp, no
signature; parameters are handed to the transport unmodified. -/
def createUnsignedRequest (cl : Client)
    (transport : String → List (String × String) → TransportOutcome)
    (path : String) (params : List (String × String)) :
    Except PyError Jsonv :=
  handleResponse (transport (cl.baseUrl ++ path) params)

end Spec2Proof.BingXAPI

namespace Spec2Proof.SrcApi

/-!
## The variant client, `src/src/api/bingx_api.py` (`class BingXAPI`)
-/

/-- Client state from `__init__(api_key=None, secret_key=None,
demo_mode=False)`: optional credentials and the demo flag; the base URL
is the same fixed production host in both branches. -/
structure Client where
  apiKey : Option String
  secretKey : Option String
  demoMode : Bool

/-- `_generate_signature` (lines 25-35): raises `ValueError` when the
secret key is falsy (`None` or the empty string), otherwise the
HMAC-SHA256 lowercase hex digest. -/
def generateSignatureE (secretKey : Option String) (paramsStr : String) :
    Except String String :=
  match secretKey with
  | none => .error "Secret key is required for signing requests"
  | some "" => .error "Secret key is required for signing requests"
  | some s => .ok (hmacSha256Hex s paramsStr)

/-- List-of-characters starts-with test. -/
def isPrefixL : List Char → List Char → Bool
  | [], _ => true
  | _ :: _, [] => false
  | a :: as, b :: bs => a == b && isPrefixL as bs

/-- Substring occurrence over character lists. -/
def occursIn (sub : List Char) : List Char → Bool
  | [] => sub.isEmpty
  | c :: rest => isPrefixL sub (c :: rest) || occursIn sub rest

/-- Python's `sub in s` on strings: substring containment. -/
def pyIn (sub s : String) : Bool := occursIn sub.data s.data

/-- Python's `s.endswith(t)`. -/
def pyEndsWith (s t : String) : Bool :=
  isPrefixL t.data.reverse s.data.reverse

/-- A `{"code": 0, "msg": "", "data": ...}` envelope. -/
def envelope (data : Jsonv) : Jsonv :=
  .jobj [("code", .jnum 0), ("msg", .jstr ""), ("data", data)]

/-- `_get_demo_data` (lines 80-404): the DEMO fixture table, keyed by
request-path substring. The calls to `int(time.time() * 1000)` inside
several fixtures are made explicit as the `nowMs` argument (every such
call within one invocation reads the same clock instant). -/
def getDemoData (endpoint : String) (nowMs : Int) : Jsonv :=
  if pyIn "/user/balance" endpoint then
    envelope (.jobj [("balances", .jarr [.jobj
      [("asset", .jstr "USDT"), ("walletBalance", .jstr "10000.00"),
       ("unrealizedProfit", .jstr "0.00"),
       ("marginBalance", .jstr "10000.00")]])])
  else if pyIn "/user/positions" endpoint then
    envelope (.jarr [.jobj
      [("symbol", .jstr "BTC-USDT"), ("positionAmt", .jstr "0.001"),
       ("entryPrice", .jstr "60000.00"),
       ("unrealizedProfit", .jstr "50.00"), ("leverage", .jstr "10"),
       ("positionSide", .jstr "LONG")]])
  else if pyIn "/user/income" endpoint then
    if pyEndsWith endpoint "/export" then
      envelope (.jstr "https://temp.bingx.com/export/income-history.xlsx")
    else
      envelope (.jarr
        [.jobj [("symbol", .jstr "BTC-USDT"),
                ("incomeType", .jstr "REALIZED_PNL"),
                ("income", .jstr "25.50"), ("asset", .jstr "USDT"),
                ("time", .jnum nowMs),
                ("info", .jstr "Realized PnL for closed position")],
         .jobj [("symbol", .jstr "ETH-USDT"),
                ("incomeType", .jstr "FUNDING_FEE"),
                ("income", .jstr "-1.20"), ("asset", .jstr "USDT"),
                ("time", .jnum (nowMs - 3600000)),
                ("info", .jstr "Funding fee")]])
  else if pyIn "/user/commissionRate" endpoint then
    envelope (.jobj [("symbol", .jstr "BTC-USDT"),
      ("maker", .jstr "0.0002"), ("taker", .jstr "0.0005")])
  else if pyIn "/trade/myTrades" endpoint then
    envelope (.jarr [.jobj
      [("symbol", .jstr "BTC-USDT"), ("id", .jstr "123456"),
       ("orderId", .jstr "789012"), ("side", .jstr "BUY"),
       ("price", .jstr "60000.00"), ("qty", .jstr "0.001"),
       ("realizedPnl", .jstr "50.00"), ("fee", .jstr "-0.0005"),
       ("time", .jnum nowMs)]])
  else if pyIn "/ticker/price" endpoint then
    envelope (.jarr [.jobj
      [("symbol", .jstr "BTC-USDT"), ("price", .jstr "60000.00")]])
  else if pyIn "/user/account" endpoint then
    envelope (.jobj
      [("feeTier", .jnum 0), ("canTrade", .jbool true),
       ("canDeposit", .jbool true), ("canWithdraw", .jbool true),
       ("updateTime", .jnum nowMs), ("multiAssetsMargin", .jbool false),
       ("positions", .jarr [.jobj
         [("symbol", .jstr "BTC-USDT"),
          ("initialMargin", .jstr "0.00000000"),
          ("maintMargin", .jstr "0.00000000"),
          ("unrealizedProfit", .jstr "0.00000000"),
          ("positionInitialMargin", .jstr "0.00000000"),
          ("openOrderInitialMargin", .jstr "0.00000000"),
          ("leverage", .jstr "10"), ("isolated", .jbool false),
          ("positionSide", .jstr "BOTH"),
          ("entryPrice", .jstr "0.00000"),
          ("maxQty", .jstr "100.00000000")]])])
  else if pyIn "/trade/order/test" endpoint then
    envelope (.jobj [("orderId", .jstr "123456789"),
      ("symbol", .jstr "BTC-USDT"), ("transactTime", .jnum nowMs)])
  else if pyIn "/trade/closeAllPositions" endpoint then
    envelope (.jstr "All positions closed successfully")
  else if pyIn "/trade/forceOrders" endpoint then
    envelope (.jarr [.jobj
      [("orderId", .jstr "123456"), ("symbol", .jstr "BTC-USDT"),
       ("status", .jstr "FILLED"), ("type", .jstr "LIMIT"),
       ("side", .jstr "SELL"), ("time", .jnum nowMs),
       ("autoCloseType", .jstr "LIQUIDATION")]])
  else if pyIn "/positionHistory" endpoint then
    envelope (.jarr [.jobj
      [("symbol", .jstr "BTC-USDT"), ("positionSide", .jstr "LONG"),
       ("entryPrice", .jstr "59000.00"), ("exitPrice", .jstr "61000.00"),
       ("realizedPnl", .jstr "2.50"), ("marginAsset", .jstr "USDT"),
       ("quantity", .jstr "0.001"), ("realizedTime", .jnum nowMs)]])
  else if pyIn "/trade/fillHistory" endpoint then
    envelope (.jarr [.jobj
      [("symbol", .jstr "BTC-USDT"), ("id", .jstr "123456"),
       ("orderId", .jstr "789012"), ("side", .jstr "BUY"),
       ("price", .jstr "60000.00"), ("qty", .jstr "0.001"),
       ("realizedPnl", .jstr "0.00"), ("fee", .jstr "-0.0005"),
       ("time", .jnum nowMs)]])
  else if pyIn "/maintMarginRatio" endpoint then
    envelope (.jobj [("symbol", .jstr "BTC-USDT"),
      ("maintMarginRatio", .jstr "0.004")])
  else if pyIn "/quote/contracts" endpoint then
    envelope (.jarr [.jobj
      [("symbol", .jstr "BTC-USDT"), ("pair", .jstr "BTC-USDT"),
       ("contractType", .jstr "PERPETUAL"),
       ("deliveryDate", .jnum 4133404800000),
       ("onboardDate", .jnum 1616847109000),
       ("status", .jstr "TRADING"), ("baseAsset", .jstr "BTC"),
       ("quoteAsset", .jstr "USDT"),
       ("maintMarginPercent", .jstr "2.500"),
       ("requiredMarginPercent", .jstr "5.000"),
       ("baseAssetPrecision", .jstr "8"), ("quotePrecision", .jstr "8"),
       ("pricePrecision", .jstr "2"), ("quantityPrecision", .jstr "3"),
       ("baseCommissionPrecision", .jstr "8"),
       ("quoteCommissionPrecision", .jstr "8"),
       ("contractSize", .jstr "1"),
       ("orderType", .jarr [.jstr "LIMIT", .jstr "MARKET"]),
       ("timeInForce", .jarr
         [.jstr "GTC", .jstr "IOC", .jstr "FOK", .jstr "GTX"]),
       ("filters", .jarr [])]])
  else if pyIn "/positionSide/dual" endpoint then
    envelope (.jobj [("dualSidePosition", .jbool true)])
  else if pyIn "/trade/positionMargin" endpoint then
    envelope (.jobj [("symbol", .jstr "BTC-USDT"), ("type", .jnum 1),
      ("amount", .jstr "10.00"), ("code", .jnum 200)])
  else if pyIn "/trade/autoAddMargin" endpoint then
    envelope (.jobj [("symbol", .jstr "BTC-USDT"),
      ("autoAddMargin", .jbool true)])
  else if pyIn "/user/marginAssets" endpoint then
    envelope (.jarr [.jobj
      [("asset", .jstr "USDT"), ("borrowEnabled", .jbool true),
       ("transferIn", .jbool true), ("transferOut", .jbool true)]])
  else if pyIn "/trade/assetMode" endpoint then
    envelope (.jobj [("multiAssetsMargin", .jbool true)])
  else if pyIn "/trade/multiAssetsRules" endpoint then
    envelope (.jobj [("isMultiAssetsMargin", .jbool true)])
  else if pyIn "/trade/cancelAllAfter" endpoint then
    envelope (.jobj [("delayNum", .jnum 60000),
      ("currentTime", .jnum nowMs),
      ("triggerTime", .jnum (nowMs + 60000))])
  else if pyIn "/trade/amend" endpoint then
    envelope (.jobj [("orderId", .jstr "123456789"),
      ("symbol", .jstr "BTC-USDT"), ("origQty", .jstr "0.001"),
      ("price", .jstr "61000.00")])
  else if pyIn "/trade/reverse" endpoint then
    envelope (.jobj [("symbol", .jstr "BTC-USDT"),
      ("status", .jstr "SUCCESS")])
  else envelope (.jobj [])

/-- The query string signed by `_make_request` (lines 45-49):
`urlencode(params)` after `params["timestamp"]` is set — the pairs are
serialized in insertion order, with no sorting anywhere. -/
def signedQueryString (params : List (String × String)) (nowMs : Int) :
    String :=
  urlencode (dictSet params "timestamp" (toString nowMs))

/-- The `signature` parameter value `_make_request` attaches for given
caller parameters: the HMAC of the insertion-ordered query string. -/
def requestSignature (secretKey : String)
    (params : List (String × String)) (nowMs : Int) : String :=
  hmacSha256Hex secretKey (signedQueryString params nowMs)

/-- `result["code"]` when the parsed body is an object with an integer
`code` member, as every body produced by this API is. -/
def resultCode (j : Jsonv) : Option Int :=
  match objGet j "code" with
  | some (.jnum c) => some c
  | _ => none

/-- `result.get("msg", "Unknown error")`. -/
def resultMsg (j : Jsonv) : String :=
  match objGet j "msg" with
  | some (.jstr m) => m
  | _ => "Unknown error"

/-- `_make_request` (lines 37-78). In DEMO mode it returns
`_get_demo_data(endpoint)` before anything else — the credentials and the
transport are never consulted. In LIVE mode the parameters are signed if
requested, the transport is invoked, non-200 statuses and JSON-decode
failures raise, and a non-zero provider `code` raises `API Error`. -/
def makeRequest (cl : Client)
    (transport : String → String → List (String × String) → TransportOutcome)
    (method endpoint : String) (params : List (String × String))
    (sign : Bool) (nowMs : Int) : Except String Jsonv :=
  if cl.demoMode then .ok (getDemoData endpoint nowMs)
  else
    let signedPs : Except String (List (String × String)) :=
      if sign then
        let ps := dictSet params "timestamp" (toString nowMs)
        match generateSignatureE cl.secretKey (urlencode ps) with
        | .error e => .error e
        | .ok sig => .ok (dictSet ps "signature" sig)
      else .ok params
    match signedPs with
    | .error e => .error e
    | .ok ps =>
        match transport method endpoint ps with
        | .netError m => .error ("Request failed: " ++ m)
        | .success r =>
            if r.status ≠ 200 then
              .error ("HTTP Error " ++ toString r.status ++ ": " ++ r.content)
            else
              match r.jsonResult with
              | .error e =>
                  .error ("Invalid JSON response: " ++ e.msg ++
                    ", Raw response: " ++ r.content)
              | .ok j =>
                  match resultCode j with
                  | some c =>
                      if c ≠ 0 then
                        .error ("API Error " ++ toString c ++ ": " ++
                          resultMsg j)
                      else .ok j
                  | none => .ok j

/-- `validate_credentials` (lines 406-418): `True` unconditionally in
DEMO mode; in LIVE mode a signed balance request is made and every
exception — transport failure, HTTP error, malformed JSON, provider
rejection — is caught, logged, and collapsed to `False`, the same value
returned for a zero-code check failure. -/
def validateCredentials (cl : Client)
    (transport : String → String → List (String × String) → TransportOutcome)
    (nowMs : Int) : Bool :=
  if cl.demoMode then true
  else
    match makeRequest cl transport "GET" "/openApi/swap/v3/user/balance" []
        true nowMs with
    | .error _ => false
    | .ok result =>
        match objGet result "code" with
        | some (.jnum c) => c == 0
        | _ => false

end Spec2Proof.SrcApi

namespace Spec2Proof.BackupClient

/-!
## The backup client, `src/backup/bingx_client_updated.py`
(`class BingXClient`), and its configuration `src/backup/config.py`
-/

/-- `config.BINGX_API_KEY` placeholder sentinel (`backup/config.py`). -/
def placeholderApiKey : String := "YOUR_API_KEY_HERE"

/-- `config.BINGX_SECRET` placeholder sentinel (`backup/config.py`). -/
def placeholderSecret : String := "YOUR_SECRET_HERE"

/-- Client state after a successful `BingXClient.__init__`. -/
structure Client where
  apiKey : String
  secretKey : String
  mode : String
  baseUrl : String
deriving Repr, DecidableEq

/-- `BingXClient.__init__` (lines 18-51) with the values it reads from
the global `config` passed explicitly: it raises `ValueError` when the
API key is falsy or among `[None, "", "YOUR_API_KEY_HERE"]`, then the
same for the secret against `[None, "", "YOUR_SECRET_HERE"]` — all
before any network object is used (the `aiohttp.ClientSession`
constructed afterwards opens no connection by itself). -/
def initClient (cfgApiKey cfgSecretKey cfgMode cfgBaseUrl : String) :
    Except String Client :=
  if cfgApiKey = "" ∨ cfgApiKey = placeholderApiKey then
    .error "BINGX_API_KEY is not set in config.py or is using default placeholder value"
  else if cfgSecretKey = "" ∨ cfgSecretKey = placeholderSecret then
    .error "BINGX_SECRET is not set in config.py or is using default placeholder value"
  else .ok ⟨cfgApiKey, cfgSecretKey, cfgMode, cfgBaseUrl⟩

/-- `_sign` (lines 87-103): `urlencode(sorted(params.items()))`, then
HMAC-SHA256 keyed by the secret, lowercase hex. -/
def sign (secretKey : String) (params : List (String × String)) : String :=
  hmacSha256Hex secretKey (urlencode (sortPairs params))

/-- The parameter dict `get_open_orders` (lines 397-415) assembles before
signing: `{"timestamp": ...}` plus the optional `symbol`. -/
def getOpenOrdersBaseParams (symbol : Option String) (nowMs : Nat) :
    List (String × String) :=
  let ps := [("timestamp", toString nowMs)]
  match symbol with
  | some sym => dictSet ps "symbol" sym
  | none => ps

/-- The parameters `get_open_orders` transmits:
`params["signature"] = self._sign(params)` appends the signature as the
final entry of the dict. -/
def getOpenOrdersParams (secretKey : String) (symbol : Option String)
    (nowMs : Nat) : List (String × String) :=
  let ps := getOpenOrdersBaseParams symbol nowMs
  dictSet ps "signature" (sign secretKey ps)

end Spec2Proof.BackupClient

namespace Spec2Proof.TradingAi

/-!
## `src/trading_ai_system/api/binance_api.py` (`class BinanceAPI`)
-/

/-- `get_account_balance` (lines 59-66) over the outcome of
`self.exchange.fetch_balance()`: the balance on success, and on ANY
exception — transport failure, timeout, malformed response — the error is
caught, logged, and replaced by the empty dict `{}`. -/
def getAccountBalance (fetch : Except String Jsonv) : Jsonv :=
  match fetch with
  | .ok balance => balance
  | .error _ => .jobj []

end Spec2Proof.TradingAi

namespace Spec2Proof

/-! ### Association-list lemmas -/

theorem insertSorted_perm (p : String × String) (l : List (String × String)) :
    List.Perm (insertSorted p l) (p :: l) := by
  induction l with
  | nil => exact List.Perm.refl _
  | cons q rest ih =>
      simp only [insertSorted]
      by_cases h : pairLe p q = true
      · simp [h]
      · simp only [if_neg h]
        exact (ih.cons q).trans (List.Perm.swap p q rest)

theorem sortPairs_perm (l : List (String × String)) :
    List.Perm (sortPairs l) l := by
  induction l with
  | nil => exact List.Perm.refl _
  | cons p rest ih =>
      exact (insertSorted_perm p (sortPairs rest)).trans (ih.cons p)

theorem mem_dictSet (ps : List (String × String)) (k v : String) :
    (k, v) ∈ dictSet ps k v := by
  unfold dictSet
  by_cases h : ps.any (fun p => p.1 == k) = true
  · simp only [h, if_pos rfl]
    rcases List.any_eq_true.mp h with ⟨p, hp, hk⟩
    refine List.mem_map.mpr ⟨p, hp, ?_⟩
    simp [hk]
  · simp [h]

theorem mem_sortPairs_of_mem {p : String × String}
    {l : List (String × String)} (h : p ∈ l) : p ∈ sortPairs l :=
  ((sortPairs_perm l).mem_iff).mpr h

theorem joinStrings_concat (sep x : String) (l : List String) (h : l ≠ []) :
    joinStrings sep (l ++ [x]) = joinStrings sep l ++ sep ++ x := by
  induction l with
  | nil => exact absurd rfl h
  | cons s rest ih =>
      cases rest with
      | nil => simp [joinStrings, String.append_assoc]
      | cons r t =>
          have step := ih (by simp)
          simp only [List.cons_append, joinStrings, List.append_eq] at step ⊢
          rw [step]
          simp [String.append_assoc]

theorem joinPairs_concat (ps : List (String × String))
    (q : String × String) (h : ps ≠ []) :
    joinPairs (ps ++ [q]) = joinPairs ps ++ "&" ++ (q.1 ++ "=" ++ q.2) := by
  unfold joinPairs
  rw [List.map_append]
  exact joinStrings_concat "&" _ _ (by simpa using h)

end Spec2Proof

namespace Spec2Proof

/-! ### Digest-shape lemmas -/

theorem hexChar_mem (n : Nat) : hexChar n ∈ hexAlphabet := by
  by_cases hn : n < 16
  · have h16 : ∀ m, m < 16 → hexChar m ∈ hexAlphabet := by decide
    exact h16 n hn
  · have hd : hexAlphabet.getD n '0' = '0' :=
      List.getD_eq_default _ _ (by simp [hexAlphabet]; omega)
    rw [hexChar, hd]
    decide

theorem mem_of_flatMap_byteHex {c : Char} {bs : List Nat}
    (h : c ∈ bs.flatMap byteHex) : c ∈ hexAlphabet := by
  rcases List.mem_flatMap.mp h with ⟨b, _, hc⟩
  simp only [byteHex, List.mem_cons, List.mem_singleton,
    List.not_mem_nil, or_false] at hc
  rcases hc with h1 | h2
  · rw [h1]; exact hexChar_mem _
  · rw [h2]; exact hexChar_mem _

theorem length_flatMap_byteHex (bs : List Nat) :
    (bs.flatMap byteHex).length = 2 * bs.length := by
  induction bs with
  | nil => rfl
  | cons b t ih =>
      simp only [List.flatMap_cons, List.length_append, ih, byteHex,
        List.length_cons, List.length_nil, List.length_cons]
      omega

theorem hmacSha256_length (key msg : List Nat) :
    (hmacSha256 key msg).length = 32 := rfl

/-! ### Auxiliary facts about the embedded clients -/

theorem dictSet_ne_nil (ps : List (String × String)) (k v : String) :
    dictSet ps k v ≠ [] := by
  unfold dictSet
  by_cases h : ps.any (fun p => p.1 == k) = true
  · simp only [h, if_pos]
    intro hmap
    rw [List.map_eq_nil_iff] at hmap
    subst hmap
    simp at h
  · simp [h]

theorem sortPairs_ne_nil {l : List (String × String)} (h : l ≠ []) :
    sortPairs l ≠ [] := by
  intro h2
  have hp := sortPairs_perm l
  rw [h2] at hp
  exact h hp.nil_eq.symm

theorem coveredParams_ne_nil (params : List (String × String)) (nowMs : Nat) :
    BingXAPI.coveredParams params nowMs ≠ [] :=
  sortPairs_ne_nil (dictSet_ne_nil _ _ _)

theorem retryAttempts_bound (responses : Nat → Nat) (r idx : Nat) :
    (BingXAPI.retryAttempts responses r idx).2 ≤ idx + r + 1 := by
  induction r generalizing idx with
  | zero =>
      unfold BingXAPI.retryAttempts
      split <;> simp
  | succ r ih =>
      unfold BingXAPI.retryAttempts
      split
      · have := ih (idx + 1)
        omega
      · omega

end Spec2Proof

namespace Spec2Proof

/-! ## Claim theorems -/

/-- C1: the claim states that the signing operation sorts parameter pairs
before serializing, so reordering the input mapping never changes the
signature. The consolidated client (`src/bingx_api.py`, lines 108-113)
does sort and is order-independent (last conjunct), but `_make_request`
in `src/src/api/bingx_api.py` (lines 45-50) serializes with
`urlencode(params)` in dict insertion order — the two orderings of the
same mapping sign different strings and produce different signatures
(first three conjuncts), which the spec itself brands a bug, not
acceptable variance. -/
theorem C1_unsorted_signing_divergence :
    SrcApi.signedQueryString [("b", "2"), ("a", "1")] 1700000000000 =
        "b=2&a=1&timestamp=1700000000000" ∧
    SrcApi.signedQueryString [("a", "1"), ("b", "2")] 1700000000000 =
        "a=1&b=2&timestamp=1700000000000" ∧
    SrcApi.requestSignature "testsecret" [("b", "2"), ("a", "1")]
        1700000000000 ≠
      SrcApi.requestSignature "testsecret" [("a", "1"), ("b", "2")]
        1700000000000 ∧
    BingXAPI.requestSignature "testsecret" [("b", "2"), ("a", "1")]
        1700000000000 =
      BingXAPI.requestSignature "testsecret" [("a", "1"), ("b", "2")]
        1700000000000 := by
  refine ⟨by decide, by decide, by decide, ?_⟩
  have h : BingXAPI.coveredParams [("b", "2"), ("a", "1")] 1700000000000 =
      BingXAPI.coveredParams [("a", "1"), ("b", "2")] 1700000000000 := by
    decide
  unfold BingXAPI.requestSignature
  rw [h]

/-- C2: `_generate_signature` (src/bingx_api.py lines 71-86) is exactly
HMAC-SHA256 of the UTF-8 bytes of the query string keyed by the UTF-8
bytes of the secret, rendered as a 64-character lowercase hex string; it
is pure and deterministic; and on the fixed known-vector input with the
fixed test secret "testsecret" it equals the independently computed
HMAC-SHA256 reference digest. -/
theorem C2_generate_signature_functional :
    (∀ secretKey queryString : String,
        (BingXAPI.generateSignature secretKey queryString).length = 64 ∧
        ((BingXAPI.generateSignature secretKey queryString).data.all
            (fun c => decide (c ∈ hexAlphabet))) = true ∧
        BingXAPI.generateSignature secretKey queryString =
          bytesToHex
            (hmacSha256 (utf8Bytes secretKey) (utf8Bytes queryString)) ∧
        BingXAPI.generateSignature secretKey queryString =
          BingXAPI.generateSignature secretKey queryString) ∧
    BingXAPI.generateSignature "testsecret"
        "symbol=BTC-USDT&timestamp=1700000000000" =
      "022f7f91226795e6971e22a689b4055b5835472607a4c5601801d689f63e24fa" := by
  constructor
  · intro secretKey queryString
    refine ⟨?_, ?_, rfl, rfl⟩
    · show (String.mk ((hmacSha256 _ _).flatMap byteHex)).length = 64
      show ((hmacSha256 _ _).flatMap byteHex).length = 64
      rw [length_flatMap_byteHex, hmacSha256_length]
    · rw [List.all_eq_true]
      intro c hc
      exact decide_eq_true (mem_of_flatMap_byteHex hc)
  · decide

/-- C3: every signed request of the consolidated client transmits the
sorted, timestamp-complete parameter list followed by a final `signature`
parameter whose value is the HMAC of the serialization of exactly those
transmitted parameters (the signature itself excluded), with `timestamp`
always present: the URL appends `&signature=` and the signature value
after the covered query string, and that trailing text is precisely the
serialization of the extra `signature` parameter that `joinPairs` gives
to the full transmitted list. Likewise `get_open_orders` in the backup
client appends `signature` last, over a permutation (the sorted
arrangement) of exactly the other transmitted parameters, with
`timestamp` always present. -/
theorem C3_signed_request_parameter_invariant :
    (∀ (cl : BingXAPI.Client) (path : String)
        (params : List (String × String)) (nowMs : Nat),
        BingXAPI.requestUrl cl path params nowMs =
          cl.baseUrl ++ path ++ "?" ++
            joinPairs (BingXAPI.coveredParams params nowMs) ++
            "&signature=" ++
            BingXAPI.requestSignature cl.secretKey params nowMs ∧
        joinPairs (BingXAPI.transmittedParams cl.secretKey params nowMs) =
          joinPairs (BingXAPI.coveredParams params nowMs) ++ "&" ++
            ("signature" ++ "=" ++
              BingXAPI.requestSignature cl.secretKey params nowMs) ∧
        ("&" : String) ++ "signature" ++ "=" = "&signature=" ∧
        BingXAPI.transmittedParams cl.secretKey params nowMs =
          BingXAPI.coveredParams params nowMs ++
            [("signature",
              BingXAPI.generateSignature cl.secretKey
                (joinPairs (BingXAPI.coveredParams params nowMs)))] ∧
        ("timestamp", toString nowMs) ∈ BingXAPI.coveredParams params nowMs ∧
        (BingXAPI.transmittedParams cl.secretKey params nowMs).getLast? =
          some ("signature",
            BingXAPI.requestSignature cl.secretKey params nowMs)) ∧
    (∀ (secretKey : String) (symbol : Option String) (nowMs : Nat),
        BackupClient.getOpenOrdersParams secretKey symbol nowMs =
          BackupClient.getOpenOrdersBaseParams symbol nowMs ++
            [("signature",
              BackupClient.sign secretKey
                (BackupClient.getOpenOrdersBaseParams symbol nowMs))] ∧
        ("timestamp", toString nowMs) ∈
          BackupClient.getOpenOrdersBaseParams symbol nowMs ∧
        List.Perm
          (sortPairs (BackupClient.getOpenOrdersBaseParams symbol nowMs))
          (BackupClient.getOpenOrdersBaseParams symbol nowMs)) := by
  constructor
  · intro cl path params nowMs
    refine ⟨rfl, ?_, by decide, rfl, ?_, ?_⟩
    · exact joinPairs_concat _ _ (coveredParams_ne_nil params nowMs)
    · exact mem_sortPairs_of_mem (mem_dictSet _ _ _)
    · unfold BingXAPI.transmittedParams
      exact List.getLast?_concat _
  · intro secretKey symbol nowMs
    refine ⟨?_, ?_, sortPairs_perm _⟩
    · cases symbol <;> rfl
    · cases symbol with
      | none => simp [BackupClient.getOpenOrdersBaseParams]
      | some sym =>
          show ("timestamp", toString nowMs) ∈
            dictSet [("timestamp", toString nowMs)] "symbol" sym
          simp [dictSet]

/-- C4: in DEMO mode `_make_request` (src/src/api/bingx_api.py) returns
the fixture-table entry for the endpoint synchronously: the transport
oracle is never invoked (the result is identical under every transport,
so no network I/O can occur) and the credentials are never consulted
(two DEMO clients with different or absent keys return identical
responses). -/
theorem C4_demo_no_network_no_credentials :
    ∀ (key1 sec1 key2 sec2 : Option String)
      (t1 t2 : String → String → List (String × String) → TransportOutcome)
      (method endpoint : String) (params : List (String × String))
      (sgn : Bool) (nowMs : Int),
      SrcApi.makeRequest ⟨key1, sec1, true⟩ t1 method endpoint params
          sgn nowMs =
        Except.ok (SrcApi.getDemoData endpoint nowMs) ∧
      SrcApi.makeRequest ⟨key1, sec1, true⟩ t1 method endpoint params
          sgn nowMs =
        SrcApi.makeRequest ⟨key2, sec2, true⟩ t2 method endpoint params
          sgn nowMs := by
  intro key1 sec1 key2 sec2 t1 t2 method endpoint params sgn nowMs
  exact ⟨rfl, rfl⟩

/-- C5 counterexample: the DEMO fixture table is NOT deterministic across
repeated invocations for every endpoint — the income fixture embeds
`int(time.time() * 1000)`, so two invocations at different clock
readings (here 0 ms and 3600000 ms, one hour apart, within one process
lifetime) return different payloads. -/
theorem C5_counterexample_income_fixture_clock :
    SrcApi.getDemoData "/openApi/swap/v2/user/income" 0 ≠
      SrcApi.getDemoData "/openApi/swap/v2/user/income" 3600000 := by
  intro h
  have h1 : firstDataTime
      (SrcApi.getDemoData "/openApi/swap/v2/user/income" 0) = some 0 := by
    decide
  have h2 : firstDataTime
      (SrcApi.getDemoData "/openApi/swap/v2/user/income" 3600000) =
      some 3600000 := by decide
  rw [h, h2] at h1
  exact absurd h1 (by decide)

/-- C5 amended: fixtures that embed no clock reading are deterministic —
in particular the balance fixture, so calling the balance-fetching
operation three times in a row in DEMO mode returns byte-identical
payloads regardless of when each call happens; clock-embedding fixtures
such as income vary with the call time. -/
theorem C5_amended_balance_fixture_deterministic :
    ∀ (key sec : Option String)
      (t1 t2 t3 : String → String → List (String × String) →
        TransportOutcome)
      (params : List (String × String)) (n1 n2 n3 : Int),
      SrcApi.makeRequest ⟨key, sec, true⟩ t1 "GET"
          "/openApi/swap/v3/user/balance" params true n1 =
        SrcApi.makeRequest ⟨key, sec, true⟩ t2 "GET"
          "/openApi/swap/v3/user/balance" params true n2 ∧
      SrcApi.makeRequest ⟨key, sec, true⟩ t2 "GET"
          "/openApi/swap/v3/user/balance" params true n2 =
        SrcApi.makeRequest ⟨key, sec, true⟩ t3 "GET"
          "/openApi/swap/v3/user/balance" params true n3 := by
  intro key sec t1 t2 t3 params n1 n2 n3
  have hstep : ∀ (t : String → String → List (String × String) →
      TransportOutcome) (n : Int),
      SrcApi.makeRequest ⟨key, sec, true⟩ t "GET"
        "/openApi/swap/v3/user/balance" params true n =
      Except.ok (SrcApi.getDemoData "/openApi/swap/v3/user/balance" n) :=
    fun _ _ => rfl
  have hconst : ∀ n : Int,
      SrcApi.getDemoData "/openApi/swap/v3/user/balance" n =
      SrcApi.envelope (.jobj [("balances", .jarr [.jobj
        [("asset", .jstr "USDT"), ("walletBalance", .jstr "10000.00"),
         ("unrealizedProfit", .jstr "0.00"),
         ("marginBalance", .jstr "10000.00")]])]) := by
    intro n
    unfold SrcApi.getDemoData
    rw [if_pos (by decide)]
  constructor
  · rw [hstep t1 n1, hstep t2 n2, hconst n1, hconst n2]
  · rw [hstep t2 n2, hstep t3 n3, hconst n2, hconst n3]

end Spec2Proof

namespace Spec2Proof

/-- C6: the session retry policy (src/bingx_api.py lines 37-45) is
bounded with the configured default allowance 3 and is restricted to
exactly the statuses 429, 500, 502, 503, 504; any status outside that
set — successes and non-retryable errors such as 404 alike — ends the
attempt loop after exactly one transport attempt; a 503 followed by a
200 yields that one 200 after exactly two transport attempts; and the
number of transport attempts never exceeds the allowance plus the
initial attempt. -/
theorem C6_bounded_retry_forcelist :
    BingXAPI.retryTotal = 3 ∧
    (∀ s : Nat, BingXAPI.isRetryableStatus s = true ↔
        (s = 429 ∨ s = 500 ∨ s = 502 ∨ s = 503 ∨ s = 504)) ∧
    (∀ s : Nat, BingXAPI.isRetryableStatus s = false →
        BingXAPI.sessionRequest (fun _ => s) = (Except.ok s, 1)) ∧
    BingXAPI.sessionRequest (fun _ => 404) = (Except.ok 404, 1) ∧
    BingXAPI.sessionRequest (fun n => if n = 0 then 503 else 200) =
      (Except.ok 200, 2) ∧
    (∀ responses : Nat → Nat,
        (BingXAPI.sessionRequest responses).2 ≤ BingXAPI.retryTotal + 1) := by
  refine ⟨rfl, ?_, ?_, rfl, rfl, ?_⟩
  · intro s
    simp [BingXAPI.isRetryableStatus, BingXAPI.statusForcelist]
  · intro s h
    simp only [BingXAPI.sessionRequest, BingXAPI.retryTotal,
      BingXAPI.retryAttempts, h]
    simp
  · intro responses
    have := retryAttempts_bound responses BingXAPI.retryTotal 0
    simpa [BingXAPI.sessionRequest] using this

/-- C6 witness: the non-retryable-status clause of
`C6_bounded_retry_forcelist` applied at the concrete status 404. -/
theorem C6_witness :
    BingXAPI.isRetryableStatus 404 = false ∧
    BingXAPI.sessionRequest (fun _ => 404) = (Except.ok 404, 1) :=
  ⟨by decide, C6_bounded_retry_forcelist.2.2.1 404 (by decide)⟩

/-- C7 counterexample: `BingXAPI.__init__` (src/bingx_api.py lines
23-61) performs no credential validation whatsoever — constructing the
live client with both keys equal to their placeholder sentinels
succeeds and yields a fully usable client, instead of failing with a
configuration error during construction as the claim states. -/
theorem C7_counterexample_placeholder_accepted :
    BingXAPI.initAPI "YOUR_API_KEY_HERE" "YOUR_SECRET_HERE"
        "https://open-api.bingx.com" =
      { apiKey := "YOUR_API_KEY_HERE", secretKey := "YOUR_SECRET_HERE",
        baseUrl := "https://open-api.bingx.com", lastRequestTime := 0,
        rateLimitDelay := BingXAPI.configRateLimitDelay } ∧
    BingXAPI.configRateLimitDelay = 1 / 5 := by
  exact ⟨rfl, rfl⟩

/-- C7 amended: only the backup `BingXClient.__init__` validates
credentials at construction: it fails (raising `ValueError`, the
configuration-error realization, before any network access) when either
key is empty or equal to its placeholder sentinel, and succeeds with any
other keys; the consolidated `BingXAPI.__init__` performs no validation
and constructs successfully for every credential value, placeholders
included. -/
theorem C7_amended_validation_backup_only :
    (∀ k s m b : String,
        (k = "" ∨ k = BackupClient.placeholderApiKey) →
        BackupClient.initClient k s m b =
          Except.error
            "BINGX_API_KEY is not set in config.py or is using default placeholder value") ∧
    (∀ k s m b : String,
        k ≠ "" → k ≠ BackupClient.placeholderApiKey →
        (s = "" ∨ s = BackupClient.placeholderSecret) →
        BackupClient.initClient k s m b =
          Except.error
            "BINGX_SECRET is not set in config.py or is using default placeholder value") ∧
    (∀ k s m b : String,
        k ≠ "" → k ≠ BackupClient.placeholderApiKey →
        s ≠ "" → s ≠ BackupClient.placeholderSecret →
        BackupClient.initClient k s m b = Except.ok ⟨k, s, m, b⟩) ∧
    (∀ k s b : String,
        BingXAPI.initAPI k s b =
          { apiKey := k, secretKey := s, baseUrl := BingXAPI.rstripSlash b,
            lastRequestTime := 0,
            rateLimitDelay := BingXAPI.configRateLimitDelay }) := by
  refine ⟨?_, ?_, ?_, fun k s b => rfl⟩
  · intro k s m b h
    unfold BackupClient.initClient
    rw [if_pos h]
  · intro k s m b h1 h2 h3
    unfold BackupClient.initClient
    rw [if_neg (not_or.mpr ⟨h1, h2⟩), if_pos h3]
  · intro k s m b h1 h2 h3 h4
    unfold BackupClient.initClient
    rw [if_neg (not_or.mpr ⟨h1, h2⟩), if_neg (not_or.mpr ⟨h3, h4⟩)]

/-- C7 witness: `C7_amended_validation_backup_only` applied at concrete
inputs — the placeholder secret is rejected, and valid non-placeholder
keys are accepted. -/
theorem C7_witness :
    BackupClient.initClient "real-key" "YOUR_SECRET_HERE" "swap"
        "https://open-api.bingx.com" =
      Except.error
        "BINGX_SECRET is not set in config.py or is using default placeholder value" ∧
    BackupClient.initClient "real-key" "real-secret" "swap"
        "https://open-api.bingx.com" =
      Except.ok ⟨"real-key", "real-secret", "swap",
        "https://open-api.bingx.com"⟩ :=
  ⟨C7_amended_validation_backup_only.2.1 "real-key" "YOUR_SECRET_HERE"
      "swap" "https://open-api.bingx.com" (by decide) (by decide)
      (Or.inr rfl),
   C7_amended_validation_backup_only.2.2.1 "real-key" "real-secret"
      "swap" "https://open-api.bingx.com" (by decide) (by decide)
      (by decide) (by decide)⟩

/-- C8 counterexample: `_enforce_rate_limit` records
`last_request_time` at the instant the gate is passed — just BEFORE the
request is issued — not at the end of the request. With the configured
0.2 s interval: the previous request passed the gate at time 0 and took
0.15 s, ending at 0.15; the next call enters the gate at 0.15 and is
released at 0.2, only 0.05 s — strictly less than the interval — after
the END of the previous request. So the delay is not measured from the
end of the previous request as the claim states. -/
theorem C8_counterexample_not_measured_from_end :
    BingXAPI.enforceRateLimit BingXAPI.configRateLimitDelay 0 (3 / 20) =
      1 / 5 ∧
    (1 / 5 : ℚ) - 3 / 20 < BingXAPI.configRateLimitDelay := by
  constructor
  · norm_num [BingXAPI.enforceRateLimit, BingXAPI.configRateLimitDelay]
  · norm_num [BingXAPI.configRateLimitDelay]

/-- C8 amended: the gate measures from the previous gate passage (the
instant the previous request was issued, which is what
`last_request_time` records): for every recorded time and current
clock, the instant at which the next request is released is at least the
configured interval after the recorded time and never before the
current clock — so back-to-back calls are spaced by at least the
interval between successive issuance instants. -/
theorem C8_amended_spacing_between_issuances :
    BingXAPI.configRateLimitDelay = 1 / 5 ∧
    ∀ delay last now : ℚ,
      delay ≤ BingXAPI.enforceRateLimit delay last now - last ∧
      now ≤ BingXAPI.enforceRateLimit delay last now := by
  refine ⟨rfl, ?_⟩
  intro delay last now
  unfold BingXAPI.enforceRateLimit
  by_cases h : now - last < delay
  · rw [if_pos h]
    constructor <;> linarith
  · rw [if_neg h]
    constructor <;> linarith

/-- C9 counterexample: failures ARE silently swallowed into default
success-shaped values by some operations. `validate_credentials`
(src/src/api/bingx_api.py lines 406-418) returns `False` for a
network-layer failure — indistinguishable from the `False` returned when
the provider genuinely rejects the credentials; `get_account_balance`
(trading_ai_system/api/binance_api.py lines 59-66) returns `{}` for a
transport failure — indistinguishable from a successful fetch of an
empty balance. -/
theorem C9_counterexample_failures_swallowed :
    SrcApi.validateCredentials ⟨some "key", some "secret", false⟩
        (fun _ _ _ => TransportOutcome.netError "Connection refused") 0 =
      false ∧
    SrcApi.validateCredentials ⟨some "key", some "secret", false⟩
        (fun _ _ _ => TransportOutcome.success
          ⟨200, "denied", Except.ok (Jsonv.jobj
            [("code", Jsonv.jnum 100413),
             ("msg", Jsonv.jstr "Incorrect apiKey")])⟩) 0 = false ∧
    TradingAi.getAccountBalance
        (Except.error "ccxt.NetworkError: timeout") = Jsonv.jobj [] ∧
    TradingAi.getAccountBalance (Except.ok (Jsonv.jobj [])) =
      Jsonv.jobj [] := by
  exact ⟨rfl, rfl, rfl, rfl⟩

/-- C9 amended: the consolidated client's request functions propagate
transport failures to the caller as errors (for both the signed and the
unsigned path), but `validate_credentials` in the variant client
collapses every failure to `False` and the trading-ai
`get_account_balance` collapses every failure to `{}` — for those
operations a failure is not distinguishable from a falsy success. -/
theorem C9_amended_propagation_vs_swallowing :
    (∀ (cl : BingXAPI.Client) (path : String)
        (params : List (String × String)) (nowMs : Nat) (m : String),
        BingXAPI.createSignedRequest cl
            (fun _ => TransportOutcome.netError m) path params nowMs =
          Except.error (BingXAPI.PyError.requestsError m)) ∧
    (∀ (cl : BingXAPI.Client) (path : String)
        (params : List (String × String)) (m : String),
        BingXAPI.createUnsignedRequest cl
            (fun _ _ => TransportOutcome.netError m) path params =
          Except.error (BingXAPI.PyError.requestsError m)) ∧
    (∀ (key sec : Option String) (m : String) (nowMs : Int),
        SrcApi.validateCredentials ⟨key, sec, false⟩
            (fun _ _ _ => TransportOutcome.netError m) nowMs = false) ∧
    (∀ e : String,
        TradingAi.getAccountBalance (Except.error e) = Jsonv.jobj []) := by
  refine ⟨fun cl path params nowMs m => rfl,
          fun cl path params m => rfl, ?_, fun e => rfl⟩
  intro key sec m nowMs
  cases sec with
  | none => rfl
  | some s =>
      cases s with
      | mk data => cases data with
        | nil => rfl
        | cons c cs => rfl

/-- C10: when a response with a success status carries a body that is
not valid JSON, both `_create_signed_request` and
`_create_unsigned_request` always re-raise the JSON-decode error to the
caller: the fallback arm that would wrap the raw text into a
success-shaped `{"code": 0, ...}` result is unreachable, because the
caught JSON-decode `ValueError` has no `response` attribute, so the
`hasattr` guard on that arm is always false. -/
theorem C10_json_decode_error_always_raises :
    ∀ (cl : BingXAPI.Client) (path : String)
      (params : List (String × String)) (nowMs : Nat)
      (status : Nat) (body : String) (e : JsonError),
      status < 400 → body ≠ "" →
      BingXAPI.createSignedRequest cl
          (fun _ => TransportOutcome.success ⟨status, body, .error e⟩)
          path params nowMs =
        Except.error (BingXAPI.PyError.valueError e) ∧
      BingXAPI.createUnsignedRequest cl
          (fun _ _ => TransportOutcome.success ⟨status, body, .error e⟩)
          path params =
        Except.error (BingXAPI.PyError.valueError e) := by
  intro cl path params nowMs status body e hstatus hbody
  have h400 : ¬ (400 ≤ status) := by omega
  have key : BingXAPI.handleResponse
      (TransportOutcome.success ⟨status, body, .error e⟩) =
      Except.error (BingXAPI.PyError.valueError e) := by
    simp [BingXAPI.handleResponse, h400, hbody, jsonErrorHasResponseAttr]
  exact ⟨key, key⟩

/-- C10 witness: `C10_json_decode_error_always_raises` at a concrete
client, a 200 status and a concrete non-JSON body. -/
theorem C10_witness :
    BingXAPI.createSignedRequest
        (BingXAPI.initAPI "key" "secret" "https://open-api.bingx.com")
        (fun _ => TransportOutcome.success
          ⟨200, "<html>maintenance</html>",
           .error ⟨"Expecting value: line 1 column 1 (char 0)",
                   "<html>maintenance</html>", 0⟩⟩)
        "/openApi/swap/v3/user/balance" [] 1700000000000 =
      Except.error (BingXAPI.PyError.valueError
        ⟨"Expecting value: line 1 column 1 (char 0)",
         "<html>maintenance</html>", 0⟩) ∧
    BingXAPI.createUnsignedRequest
        (BingXAPI.initAPI "key" "secret" "https://open-api.bingx.com")
        (fun _ _ => TransportOutcome.success
          ⟨200, "<html>maintenance</html>",
           .error ⟨"Expecting value: line 1 column 1 (char 0)",
                   "<html>maintenance</html>", 0⟩⟩)
        "/openApi/swap/v3/user/balance" [] =
      Except.error (BingXAPI.PyError.valueError
        ⟨"Expecting value: line 1 column 1 (char 0)",
         "<html>maintenance</html>", 0⟩) :=
  C10_json_decode_error_always_raises
    (BingXAPI.initAPI "key" "secret" "https://open-api.bingx.com")
    "/openApi/swap/v3/user/balance" [] 1700000000000 200
    "<html>maintenance</html>"
    ⟨"Expecting value: line 1 column 1 (char 0)",
     "<html>maintenance</html>", 0⟩ (by decide) (by decide)

end Spec2Proof
